import Mathlib

/-!
Shallow embedding of the elasticsearch client wrapper (src/main.go) and
verification of its pagination and bulk-mutation contracts.

Conventions of the embedding:
* Go strings are `List Char`.
* The network is an explicit parameter: a function whose result is matched
  exactly where the Go code inspects the response of a request.  Functions
  that may issue several requests take an oracle indexed by the ordinal of
  the request and additionally return the trace of what they dispatched.
* Go `error` results are `Option (List Char)` (`none` = nil) or a small
  tagged union where the code distinguishes error shapes.
* `json.Marshal` of the fixed-shape header maps is spelled out literally,
  with keys in sorted order exactly as Go serialises maps; `json.Marshal`
  of a caller-supplied document is kept opaque as the `content` field of
  `BulkDoc` (the Go marshaller never emits a raw newline, which theorems
  state as a hypothesis where needed).
-/

/-- Result of `req.Do` / client call: either a transport error (the Go
`err != nil` branch) or a response value. -/
inductive DoResult (α : Type) where
  | fail (msg : List Char)
  | ok (res : α)
deriving DecidableEq, Repr

/-- One entry of the per-item status list carried in the body of a bulk
response (never inspected by the Go code, but part of the response data). -/
structure BulkItem where
  id : List Char
  status : Nat
  errorReason : Option (List Char)
deriving DecidableEq, Repr

/-- A bulk-request response: the transport-level error flag `res.IsError()`,
the HTTP status, and the decoded per-item status list of the body. -/
structure BulkResponse where
  isError : Bool
  status : Nat
  items : List BulkItem
deriving DecidableEq, Repr

/-- Embedding of `performESBulk` (src/main.go:814).  `res` is the outcome of
`req.Do`.  On a transport failure the error is returned.  Otherwise the Go
variable `err` is nil; the `res.IsError()` branch executes `return err`,
which therefore returns nil, and the success path decodes the body into a
map it never reads and returns nil. -/
def performESBulk (res : DoResult BulkResponse) (index requestBody : List Char) :
    Option (List Char) :=
  match res with
  | .fail e => some e
  | .ok r =>
      -- req.Do succeeded, so the Go `err` is nil in both branches below
      if r.isError then none else none

/-- A caller document as `performESInsert` / `performESUpsert` see it:
the string of its reflected `ID` field and the bytes `json.Marshal`
produces for the whole document. -/
structure BulkDoc where
  ID : List Char
  content : List Char
deriving DecidableEq, Repr

/-- Go `json` string escaping, per character (quote, backslash and control
characters are escaped; in particular a raw newline is never emitted). -/
def escapeChar (c : Char) : List Char :=
  if c = '\"' then ['\\', '\"']
  else if c = '\\' then ['\\', '\\']
  else if c = '\n' then ['\\', 'n']
  else if c = '\r' then ['\\', 'r']
  else if c = '\t' then ['\\', 't']
  else [c]

/-- Go `json.Marshal` of a string value: escaped and wrapped in quotes. -/
def quoteString (s : List Char) : List Char :=
  '\"' :: s.flatMap escapeChar ++ ['\"']

/-- `json.Marshal` of the create header map built in `getInsertRequestBody`
(src/main.go:602); Go serialises map keys in sorted order. -/
def createHeaderLine (index id : List Char) : List Char :=
  "\x7b\"create\":\x7b\"_id\":".data ++ quoteString id ++
    ",\"_index\":".data ++ quoteString index ++ ",\"_type\":\"_doc\"\x7d\x7d".data

/-- `json.Marshal` of the update header map built in `getUpsertRequestBody`
(src/main.go:641), keys in sorted order. -/
def updateHeaderLine (index id : List Char) : List Char :=
  "\x7b\"update\":\x7b\"_id\":".data ++ quoteString id ++
    ",\"_index\":".data ++ quoteString index ++
    ",\"_type\":\"_doc\",\"retry_on_conflict\":3\x7d\x7d".data

/-- `json.Marshal` of the delete header map built in `performESDelete`
(src/main.go:704), keys in sorted order. -/
def deleteHeaderLine (index id : List Char) : List Char :=
  "\x7b\"delete\":\x7b\"_id\":".data ++ quoteString id ++
    ",\"_index\":".data ++ quoteString index ++ "\x7d\x7d".data

/-- `json.Marshal` of the upsert payload map of `getUpsertRequestBody`
(src/main.go:659): the raw marshalled document under key doc, then
doc_as_upsert. -/
def upsertDocLine (content : List Char) : List Char :=
  "\x7b\"doc\":".data ++ content ++ ",\"doc_as_upsert\":true\x7d".data

/-- Embedding of `getInsertRequestBody` (src/main.go:598): for each document,
the create header, a newline, the marshalled document, a newline. -/
def getInsertRequestBody (index : List Char) : List BulkDoc → List Char
  | [] => []
  | d :: ds =>
      createHeaderLine index d.ID ++ '\n' ::
        (d.content ++ '\n' :: getInsertRequestBody index ds)

/-- Embedding of `getUpsertRequestBody` (src/main.go:637): for each document,
the update header, a newline, the doc-as-upsert payload, a newline. -/
def getUpsertRequestBody (index : List Char) : List BulkDoc → List Char
  | [] => []
  | d :: ds =>
      updateHeaderLine index d.ID ++ '\n' ::
        (upsertDocLine d.content ++ '\n' :: getUpsertRequestBody index ds)

/-- The body-building inner loop of `performESDelete` (src/main.go:703-717):
one delete header line per id, each followed by a newline, no payload line. -/
def getDeleteRequestBody (index : List Char) : List (List Char) → List Char
  | [] => []
  | id :: rest => deleteHeaderLine index id ++ '\n' :: getDeleteRequestBody index rest

/-- Embedding of `performESInsert` (src/main.go:586).  Returns the error
result and the trace of bulk request bodies dispatched.  An empty document
list returns nil immediately, dispatching nothing. -/
def performESInsert (res : DoResult BulkResponse) (index : List Char)
    (documents : List BulkDoc) : Option (List Char) × List (List Char) :=
  if documents.length = 0 then (none, [])
  else
    (performESBulk res index (getInsertRequestBody index documents),
      [getInsertRequestBody index documents])

/-- Embedding of `performESUpsert` (src/main.go:628): no empty-input guard,
the body is built and dispatched unconditionally. -/
def performESUpsert (res : DoResult BulkResponse) (index : List Char)
    (documents : List BulkDoc) : Option (List Char) × List (List Char) :=
  (performESBulk res index (getUpsertRequestBody index documents),
    [getUpsertRequestBody index documents])

/-- The slices `ids[i:min(i+n, len)]` taken by the chunking loop of
`performESDelete` (src/main.go:697-701), for a general bound `n`
(the code instantiates `n = 20000`).  For `n = 0` the Go loop would not
terminate; the definition is only used with `0 < n`. -/
def performESDeleteChunks (n : Nat) (ids : List (List Char)) (i : Nat) :
    List (List (List Char)) :=
  if h : i < ids.length ∧ 0 < n then
    (ids.drop i).take n :: performESDeleteChunks n ids (i + n)
  else []
termination_by ids.length - i
decreasing_by omega

/-- The chunked dispatch loop of `performESDelete` (src/main.go:697-722),
with the chunk bound `n` as a parameter (`performESDelete` instantiates
`n = 20000`): builds a delete body per chunk, dispatches it via
`performESBulk` and aborts on the first non-nil error.  `transport` is the
oracle giving the `req.Do` outcome of the k-th dispatched request; the
second component is the trace of id-chunks actually dispatched.  The
`0 < n` conjunct in the guard only serves termination; the code's bound
is positive. -/
def performESDeleteLoop (n : Nat) (transport : Nat → DoResult BulkResponse)
    (index : List Char) (ids : List (List Char)) (i k : Nat) :
    Option (List Char) × List (List (List Char)) :=
  if h : i < ids.length ∧ 0 < n then
    let chunk := (ids.drop i).take n
    match performESBulk (transport k) index (getDeleteRequestBody index chunk) with
    | some e => (some e, [chunk])
    | none =>
        let rest := performESDeleteLoop n transport index ids (i + n) (k + 1)
        (rest.1, chunk :: rest.2)
  else (none, [])
termination_by ids.length - i
decreasing_by omega

/-- Embedding of `performESDelete` (src/main.go:696): the chunked dispatch
loop at the code's chunk bound of 20000, started at index 0. -/
def performESDelete (transport : Nat → DoResult BulkResponse) (index : List Char)
    (ids : List (List Char)) : Option (List Char) × List (List (List Char)) :=
  performESDeleteLoop 20000 transport index ids 0 0

/-- Splitting on the newline character, with the semantics of Go
`strings.Split(s, "\n")`: a trailing newline yields a trailing empty
fragment. -/
def splitNl : List Char → List (List Char)
  | [] => [[]]
  | c :: cs =>
      if c = '\n' then [] :: splitNl cs
      else
        match splitNl cs with
        | [] => [[c]]
        | l :: ls => (c :: l) :: ls

/-! ## Read path: scroll pagination (src/main.go:49-78, 372-581) -/

/-- Mirror of the Go `Entity` struct (src/main.go:44). -/
structure Entity where
  entityID : List Char
  entityType : Int
deriving DecidableEq, Repr

/-- Mirror of the Go `Source` struct (src/main.go:37). -/
structure Source where
  entityID : List Char
  entityType : Int
  relationEntities : List Entity
deriving DecidableEq, Repr

/-- One element of the inner hits array of `ESDocument` (src/main.go:28).
The float32 relevance score field is elided: floating point is outside the
embedding and no verified property reads it. -/
structure InnerHit where
  id : List Char
  source : Source
deriving DecidableEq, Repr

/-- Mirror of the Go `ESDocument` struct (src/main.go:23), flattened to the
two fields the code reads: the total-match count and the hit list. -/
structure ESDocument where
  totalValue : Int
  innerHits : List InnerHit
deriving DecidableEq, Repr

/-- A decoded successful search or scroll response body, with the fields the
code extracts: the hit list, the total and the _scroll_id entry. -/
structure SearchResp where
  total : Int
  hits : List InnerHit
  scrollId : List Char
deriving DecidableEq, Repr

/-- The error shapes produced on the read path: a transport error from
`esClient.Search` / `esClient.Scroll`, the formatted error built from the
structured error envelope when `res.IsError()`, and the empty scroll-id
guard error of `PerformESQueryWithScroll` (src/main.go:472). -/
inductive ESError where
  | transport (msg : List Char)
  | engine (status errType reason : List Char)
  | emptyScrollID
deriving DecidableEq, Repr

/-- Outcome of one search/scroll network call as the code observes it:
either `err != nil` from the client call, or `res.IsError()` with the
decoded error envelope, or a decoded response body. -/
inductive SearchOutcome where
  | doErr (msg : List Char)
  | statusErr (status errType reason : List Char)
  | ok (resp : SearchResp)
deriving DecidableEq, Repr

/-- Embedding of `PerformESQueryAndBuildScroll` (src/main.go:373).  `size` is
the query map entry the code reads back at line 423.  On success, the scroll
id is forwarded only when the number of returned hits equals the requested
page size; otherwise the returned scroll id is the empty string. -/
def PerformESQueryAndBuildScroll (size : Nat) (r : SearchOutcome) :
    List SearchResp × List Char × Option ESError :=
  match r with
  | .doErr m => ([], [], some (.transport m))
  | .statusErr s t reason => ([], [], some (.engine s t reason))
  | .ok resp =>
      let scrollID := if resp.hits.length = size then resp.scrollId else []
      ([resp], scrollID, none)

/-- Embedding of `PerformESQueryWithScroll` (src/main.go:470).  An empty
scroll id is rejected up front.  On success the scroll id is forwarded
whenever at least one hit was returned, regardless of any page size. -/
def PerformESQueryWithScroll (scrollID : List Char) (r : SearchOutcome) :
    List SearchResp × List Char × Option ESError :=
  if scrollID = [] then ([], [], some .emptyScrollID)
  else
    match r with
    | .doErr m => ([], [], some (.transport m))
    | .statusErr s t reason => ([], [], some (.engine s t reason))
    | .ok resp =>
        let newScrollID := if 0 < resp.hits.length then resp.scrollId else []
        ([resp], newScrollID, none)

/-- The re-packing loop shared by `GetESDataAndBuildScroll` and
`GetESDataWithScroll` (src/main.go:451-464): each entry of the result list
overwrites the total and appends its hits.  The JSON round trip through
`map[string]interface{}` is the identity on the typed response. -/
def packESDocument (resultList : List SearchResp) : ESDocument :=
  resultList.foldl
    (fun acc res => { totalValue := res.total, innerHits := acc.innerHits ++ res.hits })
    { totalValue := 0, innerHits := [] }

/-- Embedding of `GetESDataAndBuildScroll` (src/main.go:444): runs the first
scroll query and packs the result list into one `ESDocument`. -/
def GetESDataAndBuildScroll (size : Nat) (r : SearchOutcome) :
    Option ESDocument × List Char × Option ESError :=
  match PerformESQueryAndBuildScroll size r with
  | (_, _, some e) => (none, [], some e)
  | (resultList, scrollID, none) => (some (packESDocument resultList), scrollID, none)

/-- Embedding of `GetESDataWithScroll` (src/main.go:529). -/
def GetESDataWithScroll (scrollID : List Char) (r : SearchOutcome) :
    Option ESDocument × List Char × Option ESError :=
  match PerformESQueryWithScroll scrollID r with
  | (_, _, some e) => (none, [], some e)
  | (resultList, newScrollID, none) => (some (packESDocument resultList), newScrollID, none)

/-- Embedding of `scrollSearch` (src/main.go:554).  `r` is the response the
environment would give to the single request the function may issue; the
boolean records whether a request was issued at all.  With `fromIdx = 0` the
first-page query is built with the given size; otherwise, with a non-empty
scroll id, the scroll continuation runs; otherwise the zero-value
`ESDocument` is returned with an empty scroll id and nil error. -/
def scrollSearch (r : SearchOutcome) (fromIdx size : Nat) (scrollID : List Char) :
    (Option ESDocument × List Char × Option ESError) × Bool :=
  if fromIdx = 0 then
    (match GetESDataAndBuildScroll size r with
     | (_, _, some e) => (none, [], some e)
     | (doc, sid, none) => (doc, sid, none), true)
  else if scrollID ≠ [] then
    (match GetESDataWithScroll scrollID r with
     | (_, newSid, some e) => (none, newSid, some e)
     | (doc, sid, none) => (doc, sid, none), true)
  else ((some { totalValue := 0, innerHits := [] }, [], none), false)

/-- The scroll loop of `main` (src/main.go:64-77) with the step/size
constant 5000 as a parameter `s` (`mainScrollLoop` instantiates
`s = 5000`): for i := 0; i <= 5 && (i == 0 || scrollID != ""); i += s,
fetching one page of size `s` per iteration.  `oracle` gives the response
of the n-th request issued.  Returns `none` when a fetch error made `main`
return early (surfacing neither the error nor the pages), otherwise the
collected pages; paired with the number of requests issued.  The `0 < s`
conjunct in the guard only serves termination; the code's step is 5000. -/
def mainScrollLoopAux (s : Nat) (oracle : Nat → SearchOutcome) (i : Nat)
    (scrollID : List Char) (docs : List (Option ESDocument)) (nFetch : Nat) :
    Option (List (Option ESDocument)) × Nat :=
  if h : (i ≤ 5 ∧ (i = 0 ∨ scrollID ≠ [])) ∧ 0 < s then
    match scrollSearch (oracle nFetch) i s scrollID with
    | ((doc, sid, errOpt), fetched) =>
        let nFetch2 := nFetch + (if fetched then 1 else 0)
        match errOpt with
        | some _ => (none, nFetch2)
        | none => mainScrollLoopAux s oracle (i + s) sid (docs ++ [doc]) nFetch2
  else (some docs, nFetch)
termination_by 6 - i
decreasing_by omega

/-- Embedding of the scroll loop of `main` (src/main.go:64-77) at the
code's constants and initial state: step and page size 5000, loop bound
i <= 5, starting from i = 0 with an empty scroll id and no collected
pages. -/
def mainScrollLoop (oracle : Nat → SearchOutcome) :
    Option (List (Option ESDocument)) × Nat :=
  mainScrollLoopAux 5000 oracle 0 [] [] 0

/-- A concrete transport-successful bulk response with no error status. -/
def okBulkResp : BulkResponse :=
  { isError := false, status := 200, items := [] }

/-- A concrete bulk response whose transport-level status is an error. -/
def errStatusBulkResp : BulkResponse :=
  { isError := true, status := 500, items := [] }

/-- A concrete transport-successful bulk response whose single item was
rejected by the engine with a version conflict. -/
def failedItemBulkResp : BulkResponse :=
  { isError := false, status := 200,
    items := [{ id := ['b'], status := 409, errorReason := some ['v'] }] }

/-- A concrete transport-successful bulk response whose single item
succeeded. -/
def okItemBulkResp : BulkResponse :=
  { isError := false, status := 200,
    items := [{ id := ['b'], status := 200, errorReason := none }] }

/-- A transport oracle under which every bulk dispatch succeeds. -/
def alwaysOkBulk : Nat → DoResult BulkResponse :=
  fun _ => DoResult.ok okBulkResp

/-- A transport oracle under which the second dispatched bulk request
(ordinal 1) fails at transport level and every other one succeeds. -/
def failSecondChunk : Nat → DoResult BulkResponse :=
  fun k => if k = 1 then DoResult.fail ['E'] else DoResult.ok okBulkResp

/-- A concrete one-hit scroll response used as a test input: one hit,
a non-empty scroll id. -/
def oneHitResp : SearchResp :=
  { total := 1,
    hits := [{ id := ['h'],
               source := { entityID := ['e'], entityType := 0, relationEntities := [] } }],
    scrollId := ['s'] }

/-! ## Helper lemmas -/

theorem performESBulk_ok (r : BulkResponse) (index body : List Char) :
    performESBulk (DoResult.ok r) index body = none :=
  ite_self none

theorem performESDeleteChunks_flatten (n : Nat) (ids : List (List Char)) :
    ∀ m i, ids.length - i ≤ m → 0 < n →
      (performESDeleteChunks n ids i).flatten = ids.drop i := by
  intro m
  induction m with
  | zero =>
      intro i hle hn
      rw [performESDeleteChunks]
      rw [dif_neg (by omega)]
      rw [List.drop_eq_nil_of_le (by omega)]
      rfl
  | succ m ih =>
      intro i hle hn
      rw [performESDeleteChunks]
      by_cases hi : i < ids.length
      · rw [dif_pos ⟨hi, hn⟩]
        rw [List.flatten_cons]
        rw [ih (i + n) (by omega) hn]
        rw [← List.drop_drop]
        exact List.take_append_drop n (ids.drop i)
      · rw [dif_neg (by omega)]
        rw [List.drop_eq_nil_of_le (by omega)]
        rfl

theorem performESDeleteChunks_length (n : Nat) (ids : List (List Char)) :
    ∀ m i, ids.length - i ≤ m → 0 < n →
      (performESDeleteChunks n ids i).length = (ids.length - i + n - 1) / n := by
  intro m
  induction m with
  | zero =>
      intro i hle hn
      rw [performESDeleteChunks]
      rw [dif_neg (by omega)]
      have hz : ids.length - i = 0 := by omega
      rw [hz]
      rw [Nat.div_eq_of_lt (by omega)]
      rfl
  | succ m ih =>
      intro i hle hn
      rw [performESDeleteChunks]
      by_cases hi : i < ids.length
      · rw [dif_pos ⟨hi, hn⟩]
        rw [List.length_cons]
        rw [ih (i + n) (by omega) hn]
        have hL : 1 ≤ ids.length - i := by omega
        by_cases hbig : n ≤ ids.length - i
        · have e1 : ids.length - (i + n) + n - 1 = ids.length - i - 1 := by omega
          have e2 : ids.length - i + n - 1 = (ids.length - i - 1) + n := by omega
          rw [e1, e2, Nat.add_div_right _ hn]
        · have e1 : ids.length - (i + n) + n - 1 = n - 1 := by omega
          have e2 : ids.length - i + n - 1 = (ids.length - i - 1) + n := by omega
          rw [e1, e2, Nat.add_div_right _ hn]
          rw [Nat.div_eq_of_lt (by omega), Nat.div_eq_of_lt (by omega)]
      · rw [dif_neg (by omega)]
        have hz : ids.length - i = 0 := by omega
        rw [hz]
        rw [Nat.div_eq_of_lt (by omega)]
        rfl

theorem performESDeleteChunks_sizes (n : Nat) (ids : List (List Char)) :
    ∀ m i, ids.length - i ≤ m →
      ∀ c ∈ performESDeleteChunks n ids i, c.length ≤ n := by
  intro m
  induction m with
  | zero =>
      intro i hle c hc
      rw [performESDeleteChunks, dif_neg (by omega)] at hc
      exact absurd hc (List.not_mem_nil c)
  | succ m ih =>
      intro i hle c hc
      rw [performESDeleteChunks] at hc
      by_cases hi : i < ids.length ∧ 0 < n
      · rw [dif_pos hi] at hc
        rcases List.mem_cons.mp hc with h | h
        · subst h; exact List.length_take_le n _
        · exact ih (i + n) (by omega) c h
      · rw [dif_neg hi] at hc
        exact absurd hc (List.not_mem_nil c)

theorem performESDeleteLoop_trace_ok (n : Nat) (index : List Char) (ids : List (List Char)) :
    ∀ m i k, ids.length - i ≤ m →
      performESDeleteLoop n alwaysOkBulk index ids i k =
        (none, performESDeleteChunks n ids i) := by
  intro m
  induction m with
  | zero =>
      intro i k hle
      rw [performESDeleteLoop, dif_neg (by omega)]
      rw [performESDeleteChunks, dif_neg (by omega)]
  | succ m ih =>
      intro i k hle
      rw [performESDeleteLoop]
      rw [performESDeleteChunks]
      by_cases hi : i < ids.length ∧ 0 < n
      · rw [dif_pos hi, dif_pos hi]
        simp only [alwaysOkBulk, performESBulk_ok]
        rw [ih (i + n) (k + 1) (by omega)]
      · rw [dif_neg hi, dif_neg hi]

theorem performESDeleteLoop_step_fail (n : Nat) (transport : Nat → DoResult BulkResponse)
    (index : List Char) (ids : List (List Char)) (i k : Nat) (e : List Char)
    (hi : i < ids.length) (hn : 0 < n) (ht : transport k = DoResult.fail e) :
    performESDeleteLoop n transport index ids i k =
      (some e, [(ids.drop i).take n]) := by
  rw [performESDeleteLoop, dif_pos ⟨hi, hn⟩]
  simp only [ht]
  rfl

theorem performESDeleteLoop_step_ok (n : Nat) (transport : Nat → DoResult BulkResponse)
    (index : List Char) (ids : List (List Char)) (i k : Nat) (r : BulkResponse)
    (hi : i < ids.length) (hn : 0 < n) (ht : transport k = DoResult.ok r) :
    performESDeleteLoop n transport index ids i k =
      ((performESDeleteLoop n transport index ids (i + n) (k + 1)).1,
        (ids.drop i).take n ::
          (performESDeleteLoop n transport index ids (i + n) (k + 1)).2) := by
  rw [performESDeleteLoop, dif_pos ⟨hi, hn⟩]
  simp only [ht, performESBulk_ok]

theorem no_newline_append (a b : List Char) (ha : '\n' ∉ a) (hb : '\n' ∉ b) :
    '\n' ∉ a ++ b := by
  intro h
  rcases List.mem_append.mp h with h | h
  · exact ha h
  · exact hb h

theorem escapeChar_no_newline (c : Char) : '\n' ∉ escapeChar c := by
  unfold escapeChar
  by_cases h1 : c = '\"'
  · simp [h1]
  rw [if_neg h1]
  by_cases h2 : c = '\\'
  · simp [h2]
  rw [if_neg h2]
  by_cases h3 : c = '\n'
  · simp [h3]
  rw [if_neg h3]
  by_cases h4 : c = '\r'
  · simp [h4]
  rw [if_neg h4]
  by_cases h5 : c = '\t'
  · simp [h5]
  rw [if_neg h5]
  intro hmem
  exact h3 (List.mem_singleton.mp hmem).symm

theorem quoteString_no_newline (s : List Char) : '\n' ∉ quoteString s := by
  unfold quoteString
  intro hmem
  rcases List.mem_cons.mp hmem with he | hmem2
  · exact absurd he (by decide)
  rcases List.mem_append.mp hmem2 with hf | hq
  · rcases List.mem_flatMap.mp hf with ⟨c, _, hc⟩
    exact escapeChar_no_newline c hc
  · exact absurd hq (by decide)

theorem createHeaderLine_no_newline (index id : List Char) :
    '\n' ∉ createHeaderLine index id :=
  no_newline_append _ _
    (no_newline_append _ _
      (no_newline_append _ _
        (no_newline_append _ _ (by decide) (quoteString_no_newline id))
        (by decide))
      (quoteString_no_newline index))
    (by decide)

theorem updateHeaderLine_no_newline (index id : List Char) :
    '\n' ∉ updateHeaderLine index id :=
  no_newline_append _ _
    (no_newline_append _ _
      (no_newline_append _ _
        (no_newline_append _ _ (by decide) (quoteString_no_newline id))
        (by decide))
      (quoteString_no_newline index))
    (by decide)

theorem deleteHeaderLine_no_newline (index id : List Char) :
    '\n' ∉ deleteHeaderLine index id :=
  no_newline_append _ _
    (no_newline_append _ _
      (no_newline_append _ _
        (no_newline_append _ _ (by decide) (quoteString_no_newline id))
        (by decide))
      (quoteString_no_newline index))
    (by decide)

theorem upsertDocLine_no_newline (content : List Char) (h : '\n' ∉ content) :
    '\n' ∉ upsertDocLine content :=
  no_newline_append _ _ (no_newline_append _ _ (by decide) h) (by decide)

theorem splitNl_ne_nil (s : List Char) : splitNl s ≠ [] := by
  induction s with
  | nil => simp [splitNl]
  | cons c cs ih =>
      unfold splitNl
      by_cases hc : c = '\n'
      · rw [if_pos hc]
        simp
      · rw [if_neg hc]
        match hm : splitNl cs with
        | [] => exact absurd hm ih
        | l :: ls => simp

theorem splitNl_append_line (h t : List Char) (hh : '\n' ∉ h) :
    splitNl (h ++ '\n' :: t) = h :: splitNl t := by
  induction h with
  | nil =>
      show splitNl ('\n' :: t) = [] :: splitNl t
      simp [splitNl]
  | cons c cs ih =>
      have hc : c ≠ '\n' := fun e => hh (e ▸ List.mem_cons_self c cs)
      have hcs : '\n' ∉ cs := fun m => hh (List.mem_cons_of_mem c m)
      show splitNl (c :: (cs ++ '\n' :: t)) = (c :: cs) :: splitNl t
      simp only [splitNl]
      rw [if_neg hc, ih hcs]

theorem splitNl_getInsertRequestBody (index : List Char) (docs : List BulkDoc)
    (hdocs : ∀ d ∈ docs, '\n' ∉ d.content) :
    splitNl (getInsertRequestBody index docs) =
      docs.flatMap (fun d => [createHeaderLine index d.ID, d.content]) ++ [[]] := by
  induction docs with
  | nil => simp [getInsertRequestBody, splitNl]
  | cons d ds ih =>
      show splitNl (createHeaderLine index d.ID ++ '\n' ::
          (d.content ++ '\n' :: getInsertRequestBody index ds)) = _
      rw [splitNl_append_line _ _ (createHeaderLine_no_newline index d.ID)]
      rw [splitNl_append_line _ _ (hdocs d (List.mem_cons_self d ds))]
      rw [ih (fun x hx => hdocs x (List.mem_cons_of_mem d hx))]
      simp [List.flatMap_cons]

theorem splitNl_getUpsertRequestBody (index : List Char) (docs : List BulkDoc)
    (hdocs : ∀ d ∈ docs, '\n' ∉ d.content) :
    splitNl (getUpsertRequestBody index docs) =
      docs.flatMap (fun d => [updateHeaderLine index d.ID, upsertDocLine d.content]) ++ [[]] := by
  induction docs with
  | nil => simp [getUpsertRequestBody, splitNl]
  | cons d ds ih =>
      show splitNl (updateHeaderLine index d.ID ++ '\n' ::
          (upsertDocLine d.content ++ '\n' :: getUpsertRequestBody index ds)) = _
      rw [splitNl_append_line _ _ (updateHeaderLine_no_newline index d.ID)]
      rw [splitNl_append_line _ _
        (upsertDocLine_no_newline d.content (hdocs d (List.mem_cons_self d ds)))]
      rw [ih (fun x hx => hdocs x (List.mem_cons_of_mem d hx))]
      simp [List.flatMap_cons]

theorem splitNl_getDeleteRequestBody (index : List Char) (ids : List (List Char)) :
    splitNl (getDeleteRequestBody index ids) =
      ids.map (deleteHeaderLine index) ++ [[]] := by
  induction ids with
  | nil => simp [getDeleteRequestBody, splitNl]
  | cons id rest ih =>
      show splitNl (deleteHeaderLine index id ++ '\n' :: getDeleteRequestBody index rest) = _
      rw [splitNl_append_line _ _ (deleteHeaderLine_no_newline index id)]
      rw [ih]
      simp

theorem flatMap_pair_get (f g : BulkDoc → List Char) (docs : List BulkDoc) :
    ∀ nn : Nat,
      (docs.flatMap (fun d => [f d, g d])).get? (2 * nn) = (docs.get? nn).map f := by
  induction docs with
  | nil => intro nn; simp
  | cons d ds ih =>
      intro nn
      cases nn with
      | zero => simp
      | succ m =>
          have h2 : 2 * (m + 1) = 2 * m + 1 + 1 := by ring
          rw [h2]
          rw [List.flatMap_cons]
          show (f d :: g d :: ds.flatMap (fun d => [f d, g d])).get? (2 * m + 1 + 1) = _
          rw [List.get?_cons_succ, List.get?_cons_succ]
          rw [ih m]
          rfl

/-! ## Claim theorems -/

/-- C3: the claim states that when the transport-level response carries an
error status, performESBulk returns a non-nil TransportError.  The code at
src/main.go:829-831 executes return err in that branch, but err is the nil
error left over from the successful req.Do call, so nil is returned.  This
theorem evaluates the code at the failing input: a response with the error
status flag set (HTTP 500) yields a nil error result. -/
theorem bulk_error_status_returns_nil :
    performESBulk (DoResult.ok errStatusBulkResp) ['i'] [] = none := rfl

/-- C4 counterexample: the claim states the dispatcher walks the per-item
status list and returns an aggregate outcome listing each failed item.  At
the concrete input below, a transport-successful response whose single item
failed with status 409, performESBulk returns nil, and its result is
indistinguishable from the response in which the same item succeeded: no
outcome listing the failure is produced. -/
theorem bulk_item_failure_ignored_cx :
    performESBulk (DoResult.ok failedItemBulkResp) ['i'] [] = none ∧
    performESBulk (DoResult.ok failedItemBulkResp) ['i'] [] =
      performESBulk (DoResult.ok okItemBulkResp) ['i'] [] := ⟨rfl, rfl⟩

/-- C4 amended: for every transport-successful bulk submission, performESBulk
decodes the response body into a map it never reads and returns nil,
independently of the per-item status list; no per-item classification or
aggregate outcome is produced (so, trivially, no item failure is treated as
fatal to the chunk). -/
theorem bulk_response_items_ignored (r : BulkResponse) (index body : List Char) :
    performESBulk (DoResult.ok r) index body = none :=
  ite_self none

theorem mainScrollLoopAux_stop (s : Nat) (oracle : Nat → SearchOutcome) (i : Nat)
    (scrollID : List Char) (docs : List (Option ESDocument)) (nFetch : Nat)
    (h : ¬((i ≤ 5 ∧ (i = 0 ∨ scrollID ≠ [])) ∧ 0 < s)) :
    mainScrollLoopAux s oracle i scrollID docs nFetch = (some docs, nFetch) := by
  rw [mainScrollLoopAux, dif_neg h]

/-- C1 counterexample: the claim states that for every page size P, a fetch
returning fewer than P hits produces no continuation token.  For P = 2, a
continuation fetch (PerformESQueryWithScroll) whose response carries a
single hit still produces the response's scroll id as a token, because the
code forwards the token whenever the hit list is non-empty. -/
theorem continuation_token_partial_page_cx :
    oneHitResp.hits.length < 2 ∧
    (PerformESQueryWithScroll ['t'] (SearchOutcome.ok oneHitResp)).2.1 = ['s'] :=
  ⟨by decide, rfl⟩

/-- C1 amended: on the first fetch (PerformESQueryAndBuildScroll) a token is
produced exactly when the number of returned hits equals the requested page
size; on a continuation fetch (PerformESQueryWithScroll) a token is
produced exactly when at least one hit was returned, independently of any
page size.  (Both directions assume the engine response carries a non-empty
scroll id, which the code forwards verbatim.) -/
theorem token_condition_amended (size : Nat) (sid : List Char) (resp : SearchResp)
    (hscroll : resp.scrollId ≠ []) (hsid : sid ≠ []) :
    ((PerformESQueryAndBuildScroll size (SearchOutcome.ok resp)).2.1 ≠ [] ↔
      resp.hits.length = size) ∧
    ((PerformESQueryWithScroll sid (SearchOutcome.ok resp)).2.1 ≠ [] ↔
      0 < resp.hits.length) := by
  constructor
  · show (if resp.hits.length = size then resp.scrollId else []) ≠ [] ↔ _
    by_cases h : resp.hits.length = size
    · simp [h, hscroll]
    · simp [h]
  · unfold PerformESQueryWithScroll
    rw [if_neg hsid]
    show (if 0 < resp.hits.length then resp.scrollId else []) ≠ [] ↔ _
    by_cases h : 0 < resp.hits.length
    · simp [h, hscroll]
    · simp [h]

/-- C1 amended witness: the token conditions applied at page size 1 to the
concrete one-hit response. -/
theorem token_condition_amended_witness :
    oneHitResp.scrollId ≠ [] ∧ (['t'] : List Char) ≠ [] ∧
    (((PerformESQueryAndBuildScroll 1 (SearchOutcome.ok oneHitResp)).2.1 ≠ [] ↔
        oneHitResp.hits.length = 1) ∧
      ((PerformESQueryWithScroll ['t'] (SearchOutcome.ok oneHitResp)).2.1 ≠ [] ↔
        0 < oneHitResp.hits.length)) :=
  ⟨by decide, by decide, token_condition_amended 1 ['t'] oneHitResp (by decide) (by decide)⟩

/-- C2: the claim states the collection loop keeps fetching until the token
is absent or the page cap is reached.  The loop of main increments i by
5000 against the bound i <= 5, so its condition fails after the first
iteration no matter what the engine returns: for every oracle, exactly one
fetch is issued, and the run either ends in the early error return (none)
or collects exactly one page.  This contradicts the stated multi-page
intent (which spec section 9 records as the intended behavior, calling the
original looping condition buggy). -/
theorem main_scroll_loop_single_fetch (oracle : Nat → SearchOutcome) :
    (mainScrollLoop oracle).2 = 1 ∧
    ((mainScrollLoop oracle).1 = none ∨ ∃ d, (mainScrollLoop oracle).1 = some [d]) := by
  have hguard : (((0:Nat) ≤ 5 ∧ ((0:Nat) = 0 ∨ ([]:List Char) ≠ [])) ∧ 0 < 5000) :=
    ⟨⟨by norm_num, Or.inl rfl⟩, by norm_num⟩
  unfold mainScrollLoop
  rw [mainScrollLoopAux, dif_pos hguard]
  cases ho : oracle 0 with
  | doErr m =>
      simp [scrollSearch, GetESDataAndBuildScroll, PerformESQueryAndBuildScroll, ho]
  | statusErr s t reason =>
      simp [scrollSearch, GetESDataAndBuildScroll, PerformESQueryAndBuildScroll, ho]
  | ok resp =>
      simp [scrollSearch, GetESDataAndBuildScroll, PerformESQueryAndBuildScroll, ho,
        mainScrollLoopAux_stop]

/-- C6 counterexample: the claim states that on a fetch error the collector
returns the error together with the pages collected so far.  When the only
fetch of the loop of main fails, main returns early: the loop result
carries neither the error nor any pages (modelled as none), and the
collected slice is discarded. -/
theorem collector_error_discard_cx :
    mainScrollLoop (fun _ => SearchOutcome.doErr ['x']) = (none, 1) := by
  unfold mainScrollLoop
  rw [mainScrollLoopAux,
    dif_pos (⟨⟨by norm_num, Or.inl rfl⟩, by norm_num⟩ :
      (((0:Nat) ≤ 5 ∧ ((0:Nat) = 0 ∨ ([]:List Char) ≠ [])) ∧ 0 < 5000))]
  rfl

/-- C6 amended: on any fetch error (transport or engine status), the loop of
main returns immediately and surfaces neither the error nor the pages
already collected: whatever pages had been accumulated, the result is the
bare early return. -/
theorem collector_error_discards_all (msg status errType reason : List Char)
    (docs : List (Option ESDocument)) (nFetch : Nat) :
    mainScrollLoopAux 5000 (fun _ => SearchOutcome.doErr msg) 0 [] docs nFetch =
      (none, nFetch + 1) ∧
    mainScrollLoopAux 5000 (fun _ => SearchOutcome.statusErr status errType reason)
        0 [] docs nFetch = (none, nFetch + 1) := by
  have hguard : (((0:Nat) ≤ 5 ∧ ((0:Nat) = 0 ∨ ([]:List Char) ≠ [])) ∧ 0 < 5000) :=
    ⟨⟨by norm_num, Or.inl rfl⟩, by norm_num⟩
  constructor
  · rw [mainScrollLoopAux, dif_pos hguard]
    rfl
  · rw [mainScrollLoopAux, dif_pos hguard]
    rfl

/-- C9 counterexample: the claim states that a fetch attempted after
exhaustion (absent token) fails with a cursor-exhausted error rather than
silently returning an empty result.  scrollSearch invoked with a non-zero
offset and an empty scroll id issues no request and returns the zero-value
document with a nil error: a silent empty result. -/
theorem scroll_after_exhaustion_cx :
    scrollSearch (SearchOutcome.doErr ['x']) 5000 5000 [] =
      ((some { totalValue := 0, innerHits := [] }, [], none), false) := rfl

/-- C9 amended: PerformESQueryWithScroll does reject an empty scroll id with
an error before issuing any request, but scrollSearch invoked after
exhaustion (non-zero offset, empty scroll id) silently returns the
zero-value document with a nil error and issues no request. -/
theorem exhausted_fetch_amended (r : SearchOutcome) (fromIdx size : Nat)
    (h : fromIdx ≠ 0) :
    PerformESQueryWithScroll [] r = ([], [], some ESError.emptyScrollID) ∧
    scrollSearch r fromIdx size [] =
      ((some { totalValue := 0, innerHits := [] }, [], none), false) := by
  constructor
  · rfl
  · unfold scrollSearch
    rw [if_neg h]
    rw [if_neg (by simp : ¬(([]:List Char) ≠ []))]

/-- C9 amended witness: the post-exhaustion behavior at offset 1. -/
theorem exhausted_fetch_amended_witness :
    (1 : Nat) ≠ 0 ∧
    (PerformESQueryWithScroll [] (SearchOutcome.doErr ['x']) =
        ([], [], some ESError.emptyScrollID) ∧
      scrollSearch (SearchOutcome.doErr ['x']) 1 5 [] =
        ((some { totalValue := 0, innerHits := [] }, [], none), false)) :=
  ⟨by decide, exhausted_fetch_amended (SearchOutcome.doErr ['x']) 1 5 (by decide)⟩

/-- C7: for every chunk bound n with 0 < n, the chunking of the bulk-delete
path applied to a list of L ids produces ceil(L/n) = (L + n - 1) / n chunks,
each of length at most n, whose concatenation is the original list in
order; and the chunks performESDelete actually dispatches (under a
transport where every dispatch succeeds) are exactly these chunks at the
code's bound n = 20000. -/
theorem delete_chunking_spec (n : Nat) (ids : List (List Char)) (index : List Char)
    (hn : 0 < n) :
    (performESDeleteChunks n ids 0).length = (ids.length + n - 1) / n ∧
    (∀ c ∈ performESDeleteChunks n ids 0, c.length ≤ n) ∧
    (performESDeleteChunks n ids 0).flatten = ids ∧
    (performESDelete alwaysOkBulk index ids).2 = performESDeleteChunks 20000 ids 0 := by
  refine ⟨?_, ?_, ?_, ?_⟩
  · have h := performESDeleteChunks_length n ids ids.length 0 (by omega) hn
    simpa using h
  · exact performESDeleteChunks_sizes n ids ids.length 0 (by omega)
  · have h := performESDeleteChunks_flatten n ids ids.length 0 (by omega) hn
    simpa using h
  · have h := performESDeleteLoop_trace_ok 20000 index ids ids.length 0 0 (by omega)
    unfold performESDelete
    rw [h]

/-- C7 witness: the chunking specification applied at bound 2 to a concrete
three-element id list. -/
theorem delete_chunking_spec_witness :
    0 < 2 ∧
    ((performESDeleteChunks 2 [['a'], ['b'], ['c']] 0).length =
        (([['a'], ['b'], ['c']] : List (List Char)).length + 2 - 1) / 2 ∧
      (∀ c ∈ performESDeleteChunks 2 [['a'], ['b'], ['c']] 0, c.length ≤ 2) ∧
      (performESDeleteChunks 2 [['a'], ['b'], ['c']] 0).flatten = [['a'], ['b'], ['c']] ∧
      (performESDelete alwaysOkBulk ['i'] [['a'], ['b'], ['c']]).2 =
        performESDeleteChunks 20000 [['a'], ['b'], ['c']] 0) :=
  ⟨by decide, delete_chunking_spec 2 [['a'], ['b'], ['c']] ['i'] (by decide)⟩

/-- C5 counterexample: the claim states that a transport error on one chunk
does not prevent the remaining chunks of the same delete from being
dispatched.  With 40001 ids (three chunks at the code's bound of 20000) and
a transport failing exactly on the second dispatched request,
performESDelete returns the chunk-2 error after dispatching only 2 of the
3 chunks: chunk 3 is never dispatched and no aggregate containing its
result is produced. -/
theorem delete_chunk_abort_cx :
    (performESDelete failSecondChunk ['i'] (List.replicate 40001 [])).1 = some ['E'] ∧
    (performESDelete failSecondChunk ['i'] (List.replicate 40001 [])).2.length = 2 ∧
    (performESDeleteChunks 20000 (List.replicate 40001 ([] : List Char)) 0).length = 3 := by
  have hlen : (List.replicate 40001 ([] : List Char)).length = 40001 := by
    rw [List.length_replicate]
  have h1 := performESDeleteLoop_step_fail 20000 failSecondChunk ['i']
    (List.replicate 40001 []) 20000 1 ['E'] (by rw [hlen]; norm_num) (by norm_num) rfl
  have h0 := performESDeleteLoop_step_ok 20000 failSecondChunk ['i']
    (List.replicate 40001 []) 0 0 okBulkResp (by rw [hlen]; norm_num) (by norm_num) rfl
  rw [h1] at h0
  have hchunks := performESDeleteChunks_length 20000 (List.replicate 40001 ([] : List Char))
    (List.replicate 40001 ([] : List Char)).length 0 (by omega) (by norm_num)
  refine ⟨?_, ?_, ?_⟩
  · unfold performESDelete
    rw [h0]
  · unfold performESDelete
    rw [h0]
    rfl
  · rw [hchunks, hlen]

/-- C5 amended: when one chunk's bulk dispatch fails with a transport-level
error, performESDelete returns that error immediately: the failing chunk is
the last entry of the dispatch trace and no later chunk of the same delete
is dispatched (there is no aggregate outcome containing later chunks). -/
theorem delete_abort_on_chunk_error (transport : Nat → DoResult BulkResponse)
    (index : List Char) (ids : List (List Char)) (i k : Nat) (e : List Char)
    (hi : i < ids.length) (ht : transport k = DoResult.fail e) :
    performESDeleteLoop 20000 transport index ids i k =
      (some e, [(ids.drop i).take 20000]) :=
  performESDeleteLoop_step_fail 20000 transport index ids i k e hi (by norm_num) ht

/-- C5 amended witness: a single-id delete whose first dispatch fails at
transport level returns the error with exactly that one chunk dispatched. -/
theorem delete_abort_on_chunk_error_witness :
    0 < ([['a']] : List (List Char)).length ∧
    (fun _ : Nat => (DoResult.fail ['E'] : DoResult BulkResponse)) 0 =
      DoResult.fail ['E'] ∧
    performESDeleteLoop 20000 (fun _ : Nat => (DoResult.fail ['E'] : DoResult BulkResponse))
        ['i'] [['a']] 0 0 =
      (some ['E'], [(([['a']] : List (List Char)).drop 0).take 20000]) :=
  ⟨by decide, rfl,
    delete_abort_on_chunk_error (fun _ => DoResult.fail ['E']) ['i'] [['a']] 0 0 ['E']
      (by decide) rfl⟩

/-- C8: for every index, document list (whose marshalled contents contain no
raw newline, as Go json.Marshal guarantees) and id list: the insert body
splits into exactly the 2 lines per document (create header then content),
the upsert body into exactly the 2 lines per document (update header then
doc-as-upsert payload), and the delete body into exactly 1 header line per
id, each followed by the trailing empty fragment of the final newline; and
the nth action-descriptor line is the header of the nth input operation. -/
theorem bulk_body_line_structure (index : List Char) (docs : List BulkDoc)
    (ids : List (List Char)) (hdocs : ∀ d ∈ docs, '\n' ∉ d.content) :
    splitNl (getInsertRequestBody index docs) =
        docs.flatMap (fun d => [createHeaderLine index d.ID, d.content]) ++ [[]] ∧
    splitNl (getUpsertRequestBody index docs) =
        docs.flatMap (fun d => [updateHeaderLine index d.ID, upsertDocLine d.content]) ++ [[]] ∧
    splitNl (getDeleteRequestBody index ids) = ids.map (deleteHeaderLine index) ++ [[]] ∧
    (∀ nn : Nat,
      (docs.flatMap (fun d => [createHeaderLine index d.ID, d.content])).get? (2 * nn) =
        (docs.get? nn).map (fun d => createHeaderLine index d.ID)) ∧
    (∀ nn : Nat,
      (docs.flatMap (fun d => [updateHeaderLine index d.ID, upsertDocLine d.content])).get?
          (2 * nn) =
        (docs.get? nn).map (fun d => updateHeaderLine index d.ID)) ∧
    (∀ nn : Nat,
      (ids.map (deleteHeaderLine index)).get? nn =
        (ids.get? nn).map (deleteHeaderLine index)) :=
  ⟨splitNl_getInsertRequestBody index docs hdocs,
   splitNl_getUpsertRequestBody index docs hdocs,
   splitNl_getDeleteRequestBody index ids,
   flatMap_pair_get (fun d => createHeaderLine index d.ID) (fun d => d.content) docs,
   flatMap_pair_get (fun d => updateHeaderLine index d.ID)
     (fun d => upsertDocLine d.content) docs,
   fun nn => List.get?_map (deleteHeaderLine index) ids nn⟩

/-- C8 witness: the line structure at a concrete one-document, one-id
input. -/
theorem bulk_body_line_structure_witness :
    (∀ d ∈ [({ ID := ['a'], content := ['1'] } : BulkDoc)], '\n' ∉ d.content) ∧
    (splitNl (getInsertRequestBody ['i'] [{ ID := ['a'], content := ['1'] }]) =
        ([{ ID := ['a'], content := ['1'] }] : List BulkDoc).flatMap
          (fun d => [createHeaderLine ['i'] d.ID, d.content]) ++ [[]] ∧
      splitNl (getUpsertRequestBody ['i'] [{ ID := ['a'], content := ['1'] }]) =
        ([{ ID := ['a'], content := ['1'] }] : List BulkDoc).flatMap
          (fun d => [updateHeaderLine ['i'] d.ID, upsertDocLine d.content]) ++ [[]] ∧
      splitNl (getDeleteRequestBody ['i'] [['b']]) =
        ([['b']] : List (List Char)).map (deleteHeaderLine ['i']) ++ [[]] ∧
      (∀ nn : Nat,
        (([{ ID := ['a'], content := ['1'] }] : List BulkDoc).flatMap
            (fun d => [createHeaderLine ['i'] d.ID, d.content])).get? (2 * nn) =
          (([{ ID := ['a'], content := ['1'] }] : List BulkDoc).get? nn).map
            (fun d => createHeaderLine ['i'] d.ID)) ∧
      (∀ nn : Nat,
        (([{ ID := ['a'], content := ['1'] }] : List BulkDoc).flatMap
            (fun d => [updateHeaderLine ['i'] d.ID, upsertDocLine d.content])).get?
            (2 * nn) =
          (([{ ID := ['a'], content := ['1'] }] : List BulkDoc).get? nn).map
            (fun d => updateHeaderLine ['i'] d.ID)) ∧
      (∀ nn : Nat,
        (([['b']] : List (List Char)).map (deleteHeaderLine ['i'])).get? nn =
          (([['b']] : List (List Char)).get? nn).map (deleteHeaderLine ['i']))) :=
  ⟨by decide,
    bulk_body_line_structure ['i'] [{ ID := ['a'], content := ['1'] }] [['b']] (by decide)⟩

/-- C10: performESInsert called with an empty documents list returns nil with
no bulk request dispatched, while performESUpsert with an empty documents
list still dispatches one bulk request (whose body is empty) and returns
the dispatch result: the empty-input guard exists only on the insert path. -/
theorem insert_empty_guard (res : DoResult BulkResponse) (index : List Char) :
    performESInsert res index [] = (none, []) ∧
    (performESUpsert res index []).2 = [[]] ∧
    (performESUpsert res index []).1 = performESBulk res index [] :=
  ⟨rfl, rfl, rfl⟩
